import Mathlib

/-!
Shallow embedding of the random-ranking leaderboard service (src/server.js).

The database state is a list of users plus a list of claim-history records.
Mongoose object ids are modelled as natural numbers; a request body field
that may be absent is an `Option`.  The two schema files referenced by the
server (models/User.js and models/ClaimHistory.js) are not in the source
tree, so the schema-level behaviour they provide (unique user names
surfacing as a duplicate-key error with code 11000, `totalPoints`
defaulting to 0) is modelled from the specification and marked as such on
the corresponding definitions.
-/

namespace RandomRanking

/-- A stored user document: generated identifier, name, and point total. -/
structure User where
  uid : Nat
  name : String
  totalPoints : Int
deriving Repr, DecidableEq

/-- A stored claim-history document (src/server.js lines 126-129). -/
structure ClaimHistoryEntry where
  userId : Nat
  pointsClaimed : Int
deriving Repr, DecidableEq

/-- One element of the leaderboard payload built in getLeaderboard
(src/server.js lines 57-62): the object literal has the four keys
rank, name, totalPoints and _id. -/
structure LeaderboardEntry where
  rank : Nat
  name : String
  totalPoints : Int
  _id : Nat
deriving Repr, DecidableEq

/-- The JSON keys of the object literal returned for each user by
getLeaderboard (src/server.js lines 57-62), in source order. -/
def leaderboardEntryKeys : List String :=
  ["rank", "name", "totalPoints", "_id"]

/-- Modelled from the spec: the realtime payload keys named by the spec,
`{rank, name, totalPoints, id}`. -/
def specLeaderboardEntryKeys : List String :=
  ["rank", "name", "totalPoints", "id"]

/-- The whole database state: the user collection and the claim-history
collection. -/
structure DbState where
  users : List User
  history : List ClaimHistoryEntry
deriving Repr, DecidableEq

/-- Comparator embedded from `User.find({}).sort({ totalPoints: -1 })`
(src/server.js line 55): descending order on totalPoints. -/
def pointsDesc (a b : User) : Bool :=
  b.totalPoints ≤ a.totalPoints

/-- Embedding of getLeaderboard (src/server.js lines 54-63): fetch all
users sorted by totalPoints descending, then map each user at index i to
an entry with rank i + 1, the user name, the point total and the user
identifier. -/
def getLeaderboard (users : List User) : List LeaderboardEntry :=
  (users.mergeSort pointsDesc).mapIdx fun index u =>
    { rank := index + 1, name := u.name, totalPoints := u.totalPoints, _id := u.uid }

/-- Where an emitted event is delivered: `io.emit` reaches every connected
client, `socket.emit` reaches the one socket. -/
inductive EmitTarget where
  | toAll : EmitTarget
  | toSocket (sid : Nat) : EmitTarget
deriving Repr, DecidableEq

/-- One realtime emission: delivery target, event name, payload. -/
structure Emission where
  target : EmitTarget
  event : String
  payload : List LeaderboardEntry
deriving Repr, DecidableEq

/-- An error raised by the storage layer.  Mongoose errors carry an
optional numeric code: the duplicate-key error has code 11000, while a
cast error (malformed object id) has no numeric code. -/
structure DbError where
  code : Option Nat
deriving Repr, DecidableEq

/-- Modelled from the spec: the User model (models/User.js, not under
src/) declares `name` unique and `totalPoints` defaulting to 0, so
`new User({ name })` yields a user with 0 points. -/
def mkUser (freshId : Nat) (name : String) : User :=
  { uid := freshId, name := name, totalPoints := 0 }

/-- Modelled from the spec: saving a new user fails with the storage
duplicate-key signal (error code 11000) exactly when the name is already
held by some stored user; otherwise the document is appended. -/
def saveNewUser (users : List User) (u : User) : Except DbError (List User) :=
  if users.any fun v => v.name == u.name then
    Except.error { code := some 11000 }
  else
    Except.ok (users ++ [u])

/-- A userId taken from a request body: either a well-formed object id or
a malformed string. -/
inductive IdInput where
  | valid (oid : Nat) : IdInput
  | malformed (raw : String) : IdInput
deriving Repr, DecidableEq

/-- Modelled Mongoose semantics of `User.findById` (src/server.js line
115): a malformed id makes the lookup throw a cast error (no numeric
code); a well-formed id resolves to the first stored user with that id,
or to nothing. -/
def findById (users : List User) : IdInput → Except DbError (Option User)
  | IdInput.valid oid => Except.ok (users.find? fun u => u.uid == oid)
  | IdInput.malformed _ => Except.error { code := none }

/-- Response of the POST /api/users handler (src/server.js lines 89-106). -/
inductive UsersResult where
  | badRequest (message : String) : UsersResult
  | created (user : User) : UsersResult
  | conflict (message : String) : UsersResult
  | serverError (message : String) : UsersResult
deriving Repr, DecidableEq

/-- HTTP status of a POST /api/users response. -/
def UsersResult.status : UsersResult → Nat
  | UsersResult.badRequest _ => 400
  | UsersResult.created _ => 201
  | UsersResult.conflict _ => 409
  | UsersResult.serverError _ => 500

/-- Embedding of the POST /api/users handler (src/server.js lines
89-106).  `body` is the `name` field of the request body (absent or empty
is falsy, hence 400); a successful save broadcasts the recomputed
leaderboard to all clients and answers 201 with the created user; a
storage error with code 11000 answers 409, any other storage error 500. -/
def postUsers (st : DbState) (freshId : Nat) (body : Option String) :
    DbState × UsersResult × List Emission :=
  match body with
  | none => (st, UsersResult.badRequest "Name is required", [])
  | some n =>
    if n = "" then
      (st, UsersResult.badRequest "Name is required", [])
    else
      match saveNewUser st.users (mkUser freshId n) with
      | Except.error e =>
        if e.code = some 11000 then
          (st, UsersResult.conflict "Error: This user name already exists.", [])
        else
          (st, UsersResult.serverError "Error adding user", [])
      | Except.ok users1 =>
        let st1 : DbState := { st with users := users1 }
        (st1, UsersResult.created (mkUser freshId n),
          [{ target := EmitTarget.toAll, event := "leaderboardUpdate",
             payload := getLeaderboard st1.users }])

/-- Embedding of the GET /api/users handler (src/server.js lines 79-86):
returns the user collection as stored. -/
def getUsers (st : DbState) : List User :=
  st.users

/-- Response of the POST /api/claim handler (src/server.js lines
109-144). -/
inductive ClaimResult where
  | badRequest (message : String) : ClaimResult
  | notFound (message : String) : ClaimResult
  | success (message : String) (pointsAwarded : Int) (user : User) : ClaimResult
  | serverError (message : String) : ClaimResult
deriving Repr, DecidableEq

/-- HTTP status of a POST /api/claim response. -/
def ClaimResult.status : ClaimResult → Nat
  | ClaimResult.badRequest _ => 400
  | ClaimResult.notFound _ => 404
  | ClaimResult.success _ _ _ => 200
  | ClaimResult.serverError _ => 500

/-- The success message string of the claim handler (src/server.js line
136). -/
def claimMessage (points : Int) (name : String) : String :=
  "Awarded " ++ toString points ++ " points to " ++ name

/-- The user document as mutated by `user.totalPoints += randomPoints`
(src/server.js line 122). -/
def bumpPoints (u : User) (points : Int) : User :=
  { u with totalPoints := u.totalPoints + points }

/-- Saving the modified user document writes it back over every stored
document with the same identifier (the in-place `user.save()` of line
123). -/
def writeUser (users : List User) (u : User) : List User :=
  users.map fun v => if v.uid == u.uid then u else v

/-- Embedding of the POST /api/claim handler (src/server.js lines
109-144).  `draw` stands for `Math.floor(Math.random() * 10)`, a value in
0..9, so the award is `draw + 1`.  `saveUserOk` and `saveHistoryOk` are
the outcomes of the two storage writes; a failed write throws into the
catch block, which answers 500 with the fixed message and broadcasts
nothing, leaving whatever was already written in place. -/
def postClaim (st : DbState) (body : Option IdInput) (draw : Fin 10)
    (saveUserOk : Bool) (saveHistoryOk : Bool) :
    DbState × ClaimResult × List Emission :=
  match body with
  | none => (st, ClaimResult.badRequest "User ID is required", [])
  | some uid =>
    match findById st.users uid with
    | Except.error _ => (st, ClaimResult.serverError "Error claiming points", [])
    | Except.ok none => (st, ClaimResult.notFound "User not found", [])
    | Except.ok (some user) =>
      let randomPoints : Int := (draw.val : Int) + 1
      let updated : User := { user with totalPoints := user.totalPoints + randomPoints }
      if saveUserOk = false then
        (st, ClaimResult.serverError "Error claiming points", [])
      else
        let st1 : DbState := { st with users := writeUser st.users updated }
        if saveHistoryOk = false then
          (st1, ClaimResult.serverError "Error claiming points", [])
        else
          let st2 : DbState :=
            { st1 with history := st1.history ++ [{ userId := user.uid, pointsClaimed := randomPoints }] }
          (st2,
           ClaimResult.success (claimMessage randomPoints user.name) randomPoints updated,
           [{ target := EmitTarget.toAll, event := "leaderboardUpdate",
              payload := getLeaderboard st2.users }])

/-- Embedding of the connection handler (src/server.js lines 147-156): a
newly connected socket is immediately sent the current leaderboard, and
nothing else is emitted. -/
def onConnection (st : DbState) (sid : Nat) : List Emission :=
  [{ target := EmitTarget.toSocket sid, event := "leaderboardUpdate",
     payload := getLeaderboard st.users }]

/-- The fixed seed names of src/server.js line 169. -/
def initialUsers : List String :=
  ["Rahul", "Kamal", "Sanak", "Priya", "Amit", "Sunita", "Vikram", "Anjali", "Deepak", "Meera"]

/-- Embedding of seedDatabase (src/server.js lines 164-179): when the
user collection is empty, one `insertMany` batch inserts a document per
seed name; the schema default gives each 0 points (see mkUser).  `base`
supplies the generated identifiers of the batch.  A non-empty collection
is left untouched. -/
def seedDatabase (st : DbState) (base : Nat) : DbState :=
  if st.users.length = 0 then
    { st with users := st.users ++ initialUsers.mapIdx fun i n => mkUser (base + i) n }
  else
    st

/-! ## Helper lemmas -/

/-- Writing the updated document back replaces the first (and every)
match of the looked-up identifier: a lookup after the write returns the
updated document. -/
theorem find?_writeUser (users : List User) (oid : Nat) (user updated : User)
    (h : (users.find? fun u => u.uid == oid) = some user)
    (hu : updated.uid = user.uid) :
    ((writeUser users updated).find? fun u => u.uid == oid) = some updated := by
  have huser := List.find?_some h
  have huid : user.uid = oid := by simpa using huser
  induction users with
  | nil => simp [List.find?] at h
  | cons v vs ih =>
    cases hv : (v.uid == oid) with
    | true =>
      have hveq : v = user := by
        simp only [List.find?_cons, hv] at h
        exact Option.some.inj h
      have h1 : (v.uid == updated.uid) = true := by
        rw [hu, hveq]
        simp
      have h2 : (updated.uid == oid) = true := by
        rw [hu, huid]
        simp
      simp only [writeUser, List.map_cons]
      rw [if_pos h1]
      simp [List.find?_cons, h2]
    | false =>
      have h2 : List.find? (fun u => u.uid == oid) vs = some user := by
        simpa [List.find?_cons, hv] using h
      have h1 : (v.uid == updated.uid) = false := by
        rw [hu, huid]
        exact hv
      have ihr := ih h2
      simp only [writeUser, List.map_cons] at ihr ⊢
      simp only [h1, Bool.false_eq_true, if_false, List.find?_cons, hv]
      exact ihr

/-! ## Claims -/

/-- C10: a POST /api/claim whose userId is present but malformed makes
the lookup throw, so the handler falls into the generic catch and answers
500 (not 404) with the fixed message, changing no state and broadcasting
nothing. -/
theorem claim_malformed_id_is_500 (st : DbState) (raw : String) (draw : Fin 10)
    (saveUserOk saveHistoryOk : Bool) :
    postClaim st (some (IdInput.malformed raw)) draw saveUserOk saveHistoryOk =
      (st, ClaimResult.serverError "Error claiming points", []) ∧
    (ClaimResult.serverError "Error claiming points").status = 500 ∧
    (ClaimResult.serverError "Error claiming points").status ≠ 404 := by
  refine ⟨rfl, rfl, by decide⟩

/-- C9: the connection handler immediately emits exactly one
leaderboardUpdate event, addressed to the connecting socket alone (never
to all clients nor to a different socket), and its payload is the
leaderboard of the current state. -/
theorem connection_emits_current_leaderboard_once (st : DbState) (sid : Nat) :
    (onConnection st sid).length = 1 ∧
    ∀ e ∈ onConnection st sid,
      e.event = "leaderboardUpdate" ∧
      e.payload = getLeaderboard st.users ∧
      e.target = EmitTarget.toSocket sid ∧
      e.target ≠ EmitTarget.toAll ∧
      ∀ sid2, sid2 ≠ sid → e.target ≠ EmitTarget.toSocket sid2 := by
  refine ⟨rfl, ?_⟩
  intro e he
  simp only [onConnection, List.mem_singleton] at he
  subst he
  refine ⟨rfl, rfl, rfl, by simp, ?_⟩
  intro sid2 hne
  simp only [ne_eq, EmitTarget.toSocket.injEq]
  exact fun hh => hne hh.symm

/-- Witness for C9 at a concrete state and socket. -/
theorem connection_emits_current_leaderboard_once_witness :
    Emission.event
        { target := EmitTarget.toSocket 5, event := "leaderboardUpdate",
          payload := getLeaderboard [] } = "leaderboardUpdate" :=
  ((connection_emits_current_leaderboard_once { users := [], history := [] } 5).2
    { target := EmitTarget.toSocket 5, event := "leaderboardUpdate",
      payload := getLeaderboard [] } (by simp [onConnection])).1

/-- C6: a POST /api/claim with a well-formed userId matching no stored
user answers 404 and leaves the state (users and history) untouched with
no broadcast; a POST /api/claim with userId absent answers 400. -/
theorem claim_unknown_or_missing_user (st : DbState) (oid : Nat) (draw : Fin 10)
    (saveUserOk saveHistoryOk : Bool) :
    ((st.users.find? fun u => u.uid == oid) = none →
      postClaim st (some (IdInput.valid oid)) draw saveUserOk saveHistoryOk =
        (st, ClaimResult.notFound "User not found", [])) ∧
    postClaim st none draw saveUserOk saveHistoryOk =
      (st, ClaimResult.badRequest "User ID is required", []) ∧
    (ClaimResult.notFound "User not found").status = 404 ∧
    (ClaimResult.badRequest "User ID is required").status = 400 := by
  refine ⟨?_, rfl, rfl, rfl⟩
  intro h
  simp [postClaim, findById, h]

/-- Witness for C6: claiming for the unassigned id 2 in a one-user store
yields 404 and no change. -/
theorem claim_unknown_or_missing_user_witness :
    postClaim { users := [{ uid := 1, name := "A", totalPoints := 0 }], history := [] }
        (some (IdInput.valid 2)) 0 true true =
      ({ users := [{ uid := 1, name := "A", totalPoints := 0 }], history := [] },
       ClaimResult.notFound "User not found", []) :=
  (claim_unknown_or_missing_user
      { users := [{ uid := 1, name := "A", totalPoints := 0 }], history := [] }
      2 0 true true).1 (by decide)

/-- C8: when the user-points write succeeds but the history insert fails,
the handler answers a generic 500 with no rollback: the stored user keeps
the incremented totalPoints while the history collection is unchanged (no
entry for the claim), and nothing is broadcast. -/
theorem claim_history_failure_no_rollback (st : DbState) (oid : Nat) (user : User)
    (draw : Fin 10)
    (h : (st.users.find? fun u => u.uid == oid) = some user) :
    (postClaim st (some (IdInput.valid oid)) draw true false).2.1 =
      ClaimResult.serverError "Error claiming points" ∧
    (ClaimResult.serverError "Error claiming points").status = 500 ∧
    ((postClaim st (some (IdInput.valid oid)) draw true false).1.users.find?
        fun u => u.uid == oid) =
      some (bumpPoints user ((draw.val : Int) + 1)) ∧
    (postClaim st (some (IdInput.valid oid)) draw true false).1.history = st.history ∧
    (postClaim st (some (IdInput.valid oid)) draw true false).2.2 = [] := by
  refine ⟨?_, rfl, ?_, ?_, ?_⟩
  · simp [postClaim, findById, h]
  · have husers : (postClaim st (some (IdInput.valid oid)) draw true false).1.users =
        writeUser st.users (bumpPoints user ((draw.val : Int) + 1)) := by
      simp [postClaim, findById, h, bumpPoints]
    rw [husers]
    exact find?_writeUser st.users oid user _ h rfl
  · simp [postClaim, findById, h]
  · simp [postClaim, findById, h]

/-- Witness for C8: a concrete claim on user 1 with the history write
failing leaves the incremented user and an empty history. -/
theorem claim_history_failure_no_rollback_witness :
    ((postClaim { users := [{ uid := 1, name := "A", totalPoints := 4 }], history := [] }
        (some (IdInput.valid 1)) 2 true false).1.users.find?
      fun u => u.uid == 1) =
      some (bumpPoints { uid := 1, name := "A", totalPoints := 4 } 3) :=
  (claim_history_failure_no_rollback
      { users := [{ uid := 1, name := "A", totalPoints := 4 }], history := [] }
      1 { uid := 1, name := "A", totalPoints := 4 } 2 (by decide)).2.2.1

/-- C1: a successful POST /api/claim on an existing user awards an
integer in the inclusive range [1, 10]; the stored totalPoints after the
call equals the value before plus exactly that award, and the 200
response carries the award as pointsAwarded together with the updated
user record. -/
theorem claim_success_awards_and_updates (st : DbState) (oid : Nat) (user : User)
    (draw : Fin 10)
    (h : (st.users.find? fun u => u.uid == oid) = some user) :
    1 ≤ (draw.val : Int) + 1 ∧ (draw.val : Int) + 1 ≤ 10 ∧
    (postClaim st (some (IdInput.valid oid)) draw true true).2.1 =
      ClaimResult.success (claimMessage ((draw.val : Int) + 1) user.name)
        ((draw.val : Int) + 1) (bumpPoints user ((draw.val : Int) + 1)) ∧
    (postClaim st (some (IdInput.valid oid)) draw true true).2.1.status = 200 ∧
    ((postClaim st (some (IdInput.valid oid)) draw true true).1.users.find?
        fun u => u.uid == oid) = some (bumpPoints user ((draw.val : Int) + 1)) ∧
    (bumpPoints user ((draw.val : Int) + 1)).totalPoints =
      user.totalPoints + ((draw.val : Int) + 1) := by
  have hb := draw.isLt
  refine ⟨by omega, by omega, ?_, ?_, ?_, rfl⟩
  · simp [postClaim, findById, h, claimMessage, bumpPoints]
  · simp [postClaim, findById, h, ClaimResult.status]
  · have husers : (postClaim st (some (IdInput.valid oid)) draw true true).1.users =
        writeUser st.users (bumpPoints user ((draw.val : Int) + 1)) := by
      simp [postClaim, findById, h, bumpPoints]
    rw [husers]
    exact find?_writeUser st.users oid user _ h rfl

/-- Witness for C1: claiming for user 1 with draw 0 responds 200 with one
awarded point and the updated record. -/
theorem claim_success_awards_and_updates_witness :
    (postClaim { users := [{ uid := 1, name := "A", totalPoints := 0 }], history := [] }
        (some (IdInput.valid 1)) 0 true true).2.1 =
      ClaimResult.success (claimMessage 1 "A") 1
        (bumpPoints { uid := 1, name := "A", totalPoints := 0 } 1) :=
  (claim_success_awards_and_updates
      { users := [{ uid := 1, name := "A", totalPoints := 0 }], history := [] }
      1 { uid := 1, name := "A", totalPoints := 0 } 0 (by decide)).2.2.1

/-- C4: a POST /api/users with a present, non-empty name held by no
stored user answers 201 with the created record whose totalPoints is 0,
and a subsequent GET /api/users lists a user with that name and 0
points. -/
theorem register_new_user_ok (st : DbState) (freshId : Nat) (n : String)
    (hn : ¬ n = "")
    (hfree : (st.users.any fun v => v.name == n) = false) :
    (postUsers st freshId (some n)).2.1 = UsersResult.created (mkUser freshId n) ∧
    (postUsers st freshId (some n)).2.1.status = 201 ∧
    (mkUser freshId n).totalPoints = 0 ∧
    ((getUsers (postUsers st freshId (some n)).1).any
        fun v => v.name == n && v.totalPoints == 0) = true := by
  have hc : (st.users.any fun v => v.name == (mkUser freshId n).name) = false := by
    simpa [mkUser] using hfree
  have hsave : saveNewUser st.users (mkUser freshId n) =
      Except.ok (st.users ++ [mkUser freshId n]) := by
    simp [saveNewUser, hc]
  refine ⟨?_, ?_, rfl, ?_⟩
  · simp [postUsers, hn, hsave]
  · simp [postUsers, hn, hsave, UsersResult.status]
  · have husers : getUsers (postUsers st freshId (some n)).1 =
        st.users ++ [mkUser freshId n] := by
      simp [postUsers, getUsers, hn, hsave]
    rw [husers]
    simp [List.any_append, mkUser]

/-- Witness for C4: registering the fresh name Zoe against an empty store
answers 201 with the created zero-point record. -/
theorem register_new_user_ok_witness :
    (postUsers { users := [], history := [] } 7 (some "Zoe")).2.1 =
      UsersResult.created (mkUser 7 "Zoe") :=
  (register_new_user_ok { users := [], history := [] } 7 "Zoe" (by decide) (by decide)).1

/-- C5: posting a name already held answers 409 with a human-readable
message, so posting the same name twice yields 201 then 409; the conflict
arises from the storage duplicate-key error (code 11000) returned by the
save itself, not from a pre-check query. -/
theorem duplicate_name_is_conflict (st : DbState) (fid1 fid2 : Nat) (n : String)
    (hn : ¬ n = "")
    (hfree : (st.users.any fun v => v.name == n) = false) :
    (postUsers st fid1 (some n)).2.1.status = 201 ∧
    saveNewUser (postUsers st fid1 (some n)).1.users (mkUser fid2 n) =
      Except.error { code := some 11000 } ∧
    (postUsers (postUsers st fid1 (some n)).1 fid2 (some n)).2.1 =
      UsersResult.conflict "Error: This user name already exists." ∧
    (postUsers (postUsers st fid1 (some n)).1 fid2 (some n)).2.1.status = 409 := by
  have hc : (st.users.any fun v => v.name == (mkUser fid1 n).name) = false := by
    simpa [mkUser] using hfree
  have hsave : saveNewUser st.users (mkUser fid1 n) =
      Except.ok (st.users ++ [mkUser fid1 n]) := by
    simp [saveNewUser, hc]
  have hstate : (postUsers st fid1 (some n)).1 =
      { st with users := st.users ++ [mkUser fid1 n] } := by
    simp [postUsers, hn, hsave]
  have hc2 : ((st.users ++ [mkUser fid1 n]).any
      fun v => v.name == (mkUser fid2 n).name) = true := by
    simp [mkUser]
  have hsave2 : saveNewUser (st.users ++ [mkUser fid1 n]) (mkUser fid2 n) =
      Except.error { code := some 11000 } := by
    simp [saveNewUser, hc2]
  refine ⟨?_, ?_, ?_, ?_⟩
  · simp [postUsers, hn, hsave, UsersResult.status]
  · rw [hstate]
    exact hsave2
  · rw [hstate]
    simp [postUsers, hn, hsave2]
  · rw [hstate]
    simp [postUsers, hn, hsave2, UsersResult.status]

/-- Witness for C5: posting Bob twice against an empty store answers 201
then 409. -/
theorem duplicate_name_is_conflict_witness :
    (postUsers (postUsers { users := [], history := [] } 1 (some "Bob")).1 2
        (some "Bob")).2.1 =
      UsersResult.conflict "Error: This user name already exists." :=
  (duplicate_name_is_conflict { users := [], history := [] } 1 2 "Bob"
      (by decide) (by decide)).2.2.1

/-- Seed identifiers do not affect the stored names: mapping mkUser over
an indexed name list keeps exactly the names. -/
theorem mapIdx_mkUser_names (names : List String) (base : Nat) :
    ((names.mapIdx fun i n => mkUser (base + i) n).map User.name) = names := by
  simp only [List.mapIdx_eq_enum_map, List.map_map]
  have hcomp : (User.name ∘ Function.uncurry fun i n => mkUser (base + i) n) =
      (Prod.snd : Nat × String → String) := by
    funext p
    cases p
    rfl
  rw [hcomp]
  exact List.enum_map_snd names

/-- Every seed document carries the schema default of 0 points. -/
theorem mapIdx_mkUser_points (names : List String) (base : Nat) :
    ((names.mapIdx fun i n => mkUser (base + i) n).all
      fun u => u.totalPoints == 0) = true := by
  rw [List.all_eq_true]
  intro u hu
  rw [List.mapIdx_eq_enum_map] at hu
  rcases List.mem_map.mp hu with ⟨p, hp, hpe⟩
  cases p
  subst hpe
  rfl

/-- C7: starting against an empty user collection inserts, as one batch,
exactly the 10 seed users Rahul, Kamal, Sanak, Priya, Amit, Sunita,
Vikram, Anjali, Deepak, Meera, each with 0 points, and leaves the history
collection alone; starting against a non-empty collection changes
nothing. -/
theorem seeding_behaviour (st : DbState) (base : Nat) :
    (st.users = [] →
      (seedDatabase st base).users =
        (initialUsers.mapIdx fun i n => mkUser (base + i) n) ∧
      ((seedDatabase st base).users.map User.name) = initialUsers ∧
      (seedDatabase st base).users.length = 10 ∧
      ((seedDatabase st base).users.all fun u => u.totalPoints == 0) = true ∧
      (seedDatabase st base).history = st.history) ∧
    (st.users ≠ [] → seedDatabase st base = st) := by
  constructor
  · intro h
    have hlen : st.users.length = 0 := by simp [h]
    have hseed : seedDatabase st base =
        { st with users := st.users ++ initialUsers.mapIdx fun i n => mkUser (base + i) n } := by
      simp [seedDatabase, hlen]
    rw [hseed]
    refine ⟨by simp [h], ?_, ?_, ?_, rfl⟩
    · simp [h, mapIdx_mkUser_names]
    · simp [h, List.length_mapIdx, initialUsers]
    · simp [h, mapIdx_mkUser_points]
  · intro h
    have hlen : ¬ st.users.length = 0 := by
      simpa [List.length_eq_zero] using h
    simp [seedDatabase, hlen]

/-- Witness for C7: seeding an empty store yields exactly the seed names;
seeding a one-user store changes nothing. -/
theorem seeding_behaviour_witness :
    ((seedDatabase { users := [], history := [] } 100).users.map User.name =
      initialUsers) ∧
    seedDatabase { users := [{ uid := 1, name := "A", totalPoints := 3 }], history := [] } 0 =
      { users := [{ uid := 1, name := "A", totalPoints := 3 }], history := [] } :=
  ⟨((seeding_behaviour { users := [], history := [] } 100).1 rfl).2.1,
   (seeding_behaviour
       { users := [{ uid := 1, name := "A", totalPoints := 3 }], history := [] } 0).2
     (by decide)⟩

/-- The sort comparator is transitive. -/
theorem pointsDesc_trans (a b c : User) :
    pointsDesc a b = true → pointsDesc b c = true → pointsDesc a c = true := by
  intro hab hbc
  simp only [pointsDesc, decide_eq_true_eq] at *
  omega

/-- The sort comparator is total. -/
theorem pointsDesc_total (a b : User) :
    (pointsDesc a b || pointsDesc b a) = true := by
  simp only [pointsDesc, Bool.or_eq_true, decide_eq_true_eq]
  omega

/-- The leaderboard is ordered by totalPoints descending. -/
theorem getLeaderboard_sorted (users : List User) :
    List.Pairwise (fun a b => b.totalPoints ≤ a.totalPoints) (getLeaderboard users) := by
  have hs := List.sorted_mergeSort pointsDesc_trans pointsDesc_total users
  rw [List.pairwise_iff_getElem] at hs ⊢
  intro i j hi hj hij
  have hi2 : i < (users.mergeSort pointsDesc).length := by
    simpa [getLeaderboard, List.length_mapIdx] using hi
  have hj2 : j < (users.mergeSort pointsDesc).length := by
    simpa [getLeaderboard, List.length_mapIdx] using hj
  have hrel := hs i j hi2 hj2 hij
  simp only [pointsDesc, decide_eq_true_eq] at hrel
  simp only [getLeaderboard, List.getElem_mapIdx]
  exact hrel

/-- The leaderboard ranks are exactly 1..N in order, N the user count. -/
theorem getLeaderboard_ranks (users : List User) :
    (getLeaderboard users).map LeaderboardEntry.rank = List.range' 1 users.length := by
  apply List.ext_getElem
  · simp [getLeaderboard, List.length_mapIdx, List.length_range', List.length_mergeSort]
  · intro i h1 h2
    simp only [List.getElem_map, getLeaderboard, List.getElem_mapIdx, List.getElem_range']
    omega

/-- Every emission of the registration handler is a leaderboardUpdate to
all clients whose payload is the leaderboard of the post-request state. -/
theorem postUsers_broadcast (st : DbState) (freshId : Nat) (body : Option String) :
    ((postUsers st freshId body).2.2).all
      (fun e => e.event == "leaderboardUpdate" &&
        decide (e.target = EmitTarget.toAll) &&
        e.payload == getLeaderboard (postUsers st freshId body).1.users) = true := by
  unfold postUsers
  cases body with
  | none => rfl
  | some n =>
    by_cases hn : n = ""
    · simp [hn]
    · simp only [hn, if_false]
      cases hsv : saveNewUser st.users (mkUser freshId n) with
      | error e =>
        by_cases hc : e.code = some 11000 <;> simp [hc]
      | ok users1 => simp

/-- Every emission of the claim handler is a leaderboardUpdate to all
clients whose payload is the leaderboard of the post-request state. -/
theorem postClaim_broadcast (st : DbState) (body : Option IdInput) (draw : Fin 10)
    (saveUserOk saveHistoryOk : Bool) :
    ((postClaim st body draw saveUserOk saveHistoryOk).2.2).all
      (fun e => e.event == "leaderboardUpdate" &&
        decide (e.target = EmitTarget.toAll) &&
        e.payload ==
          getLeaderboard (postClaim st body draw saveUserOk saveHistoryOk).1.users) = true := by
  unfold postClaim
  cases body with
  | none => rfl
  | some uid =>
    cases hf : findById st.users uid with
    | error e => simp [hf]
    | ok ou =>
      cases ou with
      | none => simp [hf]
      | some user =>
        cases saveUserOk with
        | false => simp [hf]
        | true =>
          cases saveHistoryOk with
          | false => simp [hf]
          | true => simp [hf]

/-- C2: for every state of the user collection the leaderboard is
ordered by totalPoints descending with rank = index + 1, so ranks are
exactly 1..N with no gaps even across equal scores, N the user count; and
every broadcast of the registration and claim handlers carries exactly
that leaderboard of the post-request state to all clients. -/
theorem leaderboard_sorted_and_densely_ranked (users : List User) (st : DbState)
    (freshId : Nat) (ubody : Option String) (cbody : Option IdInput) (draw : Fin 10)
    (saveUserOk saveHistoryOk : Bool) :
    List.Pairwise (fun a b => b.totalPoints ≤ a.totalPoints) (getLeaderboard users) ∧
    (getLeaderboard users).map LeaderboardEntry.rank = List.range' 1 users.length ∧
    ((postUsers st freshId ubody).2.2).all
      (fun e => e.event == "leaderboardUpdate" &&
        decide (e.target = EmitTarget.toAll) &&
        e.payload == getLeaderboard (postUsers st freshId ubody).1.users) = true ∧
    ((postClaim st cbody draw saveUserOk saveHistoryOk).2.2).all
      (fun e => e.event == "leaderboardUpdate" &&
        decide (e.target = EmitTarget.toAll) &&
        e.payload ==
          getLeaderboard (postClaim st cbody draw saveUserOk saveHistoryOk).1.users) = true :=
  ⟨getLeaderboard_sorted users, getLeaderboard_ranks users,
   postUsers_broadcast st freshId ubody,
   postClaim_broadcast st cbody draw saveUserOk saveHistoryOk⟩

/-- C3 counterexample: the key list of the leaderboard payload objects is
not the one the spec names; the identifier key is _id, not id. -/
theorem leaderboard_entry_keys_not_id :
    leaderboardEntryKeys ≠ specLeaderboardEntryKeys := by
  decide

/-- C3 (amended): every entry of the leaderboardUpdate payload and of the
getLeaderboard result is a record with exactly the fields rank, name,
totalPoints and _id, where _id is the user identifier: forgetting rank,
the entries are exactly the stored (name, totalPoints, identifier)
triples up to the sort order. -/
theorem leaderboard_entry_fields (users : List User) :
    leaderboardEntryKeys = ["rank", "name", "totalPoints", "_id"] ∧
    ((getLeaderboard users).map fun e => (e.name, e.totalPoints, e._id)).Perm
      (users.map fun u => (u.name, u.totalPoints, u.uid)) := by
  refine ⟨rfl, ?_⟩
  have hmap : ((getLeaderboard users).map fun e => (e.name, e.totalPoints, e._id)) =
      ((users.mergeSort pointsDesc).map fun u => (u.name, u.totalPoints, u.uid)) := by
    apply List.ext_getElem
    · simp [getLeaderboard, List.length_mapIdx]
    · intro i h1 h2
      simp only [List.getElem_map, getLeaderboard, List.getElem_mapIdx]
  rw [hmap]
  exact (List.mergeSort_perm users pointsDesc).map _

end RandomRanking
